import Mathlib

/-! # ar-web-api: aggregation pipelines, request normalisation and result cache

A shallow embedding of

* `src/api/apiCalls/sites/Queries.go` (`prepareFilter`, `Daily`, `Monthly`),
* `app/ngiAvailability/ngiAvailabilityController.go` (`List`),
* the seed data and expected values of `app/results/supergroup_test.go`.

BSON documents are embedded as a small value type.  Numeric literals of the
Go source are embedded by their decimal value in `ℚ`, so `1.00000001` is the
rational `100000001 / 100000000`.
-/

namespace ArWebApi

/-! ## BSON values -/

/-- BSON values as they are built by the Go source: `bson.M` and `bson.D`
documents are key/value lists in source order, `list` is an array. -/
inductive Bson where
  | str : String → Bson
  | int : Int → Bson
  | num : ℚ → Bson
  | strs : List String → Bson
  | doc : List (String × Bson) → Bson
  | arr : List Bson → Bson

namespace Bson

/-- Value stored under `key` in a document (`m[key]` of a `bson.M`). -/
def get (key : String) : Bson → Option Bson
  | doc kvs => kvs.lookup key
  | _ => none

/-- Keys of a document, in order. -/
def keys : Bson → List String
  | doc kvs => kvs.map Prod.fst
  | _ => []

/-- Assignment `m[key] = v` on a `bson.M`: replaces the binding of `key` when
there is one, adds it otherwise. -/
def set (b : Bson) (key : String) (v : Bson) : Bson :=
  match b with
  | doc kvs =>
      if kvs.any (fun kv => kv.1 == key) then
        doc (kvs.map (fun kv => if kv.1 == key then (key, v) else kv))
      else doc (kvs ++ [(key, v)])
  | other => other

end Bson

/-! ## Package `sites`: `Queries.go` -/

namespace sites

/-- The fields of `ApiSiteAvailabilityInProfileInput` that `Queries.go` reads. -/
structure ApiSiteAvailabilityInProfileInput where
  start_time : String
  end_time : String
  profile_name : List String
  namespace_ : List String
  group_name : List String

/-- The calendar date of a `time.Time` in UTC; the clock part plays no role in
`Format(ymdForm)`. -/
structure Time where
  year : Nat
  month : Nat
  day : Nat
  deriving DecidableEq, Repr

/-- The zero `time.Time`, January 1 of year 1, which `time.Parse` returns
together with its error. -/
def Time.zero : Time := ⟨1, 1, 1⟩

/-- Decimal digit character of `n % 10`. -/
def digitChar (n : Nat) : Char := Char.ofNat (48 + n % 10)

/-- Zero padded two digit rendering (`01`, `02` of a layout). -/
def pad2 (n : Nat) : List Char := [digitChar (n / 10), digitChar n]

/-- Rendering of the year for `2006`: at least four digits, zero padded. -/
def pad4 (n : Nat) : List Char :=
  if n < 10000 then
    [digitChar (n / 1000), digitChar (n / 100), digitChar (n / 10), digitChar n]
  else Nat.toDigits 10 n

/-- The call `t.Format(ymdForm)` with `ymdForm = "20060102"`. -/
def Time.formatYMD (t : Time) : String :=
  String.mk (pad4 t.year ++ pad2 t.month ++ pad2 t.day)

/-- The call `strconv.Atoi` with its error dropped, as in `v, _ := strconv.Atoi(s)`:
an optional sign followed by decimal digits, and `0` on any other string.  The
range error of `Atoi` is left out: the strings read here have eight digits. -/
def atoi (s : String) : Int :=
  let digits (cs : List Char) : Option Nat :=
    if cs.isEmpty then none
    else cs.foldl
      (fun acc c => acc.bind (fun a =>
        if c.isDigit then some (a * 10 + (c.toNat - 48)) else none))
      (some 0)
  match s.data with
  | '-' :: cs => match digits cs with
      | some n => - (n : Int)
      | none => 0
  | '+' :: cs => match digits cs with
      | some n => (n : Int)
      | none => 0
  | cs => match digits cs with
      | some n => (n : Int)
      | none => 0

/-- The day bucket of a `Time`: `strconv.Atoi(t.Format(ymdForm))`. -/
def ymdInt (t : Time) : Int := atoi t.formatYMD

/-- Source function `prepareFilter`.  The library call `time.Parse(zuluForm, ·)` is the
parameter `parse`; on a parse error the Go code keeps the zero `Time`. -/
def prepareFilter (parse : String → Option Time)
    (input : ApiSiteAvailabilityInProfileInput) : Bson :=
  let ts := (parse input.start_time).getD Time.zero
  let te := (parse input.end_time).getD Time.zero
  let tsYMD := ymdInt ts
  let teYMD := ymdInt te
  let filter : Bson := Bson.doc [
    ("dt", Bson.doc [("$gte", Bson.int tsYMD), ("$lte", Bson.int teYMD)]),
    ("p", Bson.doc [("$in", Bson.strs input.profile_name)])]
  let filter :=
    if input.namespace_.length > 0 then
      filter.set "ns" (Bson.doc [("$in", Bson.strs input.namespace_)])
    else filter
  let filter := if input.group_name.length > 0 then filter else filter
  let filter := filter.set "i" (Bson.str "Production")
  let filter := filter.set "cs" (Bson.str "Certified")
  let filter := filter.set "pr" (Bson.str "Y")
  let filter := filter.set "m" (Bson.str "Y")
  filter

/-- Source function `Daily`: the three stage pipeline. -/
def Daily (parse : String → Option Time)
    (input : ApiSiteAvailabilityInProfileInput) : List Bson :=
  let filter := prepareFilter parse input
  [ Bson.doc [("$match", filter)],
    Bson.doc [("$project", Bson.doc [
      ("dt", Bson.doc [("$substr", Bson.arr [Bson.str "$dt", Bson.int 0, Bson.int 8])]),
      ("i", Bson.int 1), ("sc", Bson.int 1), ("ss", Bson.int 1), ("n", Bson.int 1),
      ("pr", Bson.int 1), ("m", Bson.int 1), ("cs", Bson.int 1), ("ns", Bson.int 1),
      ("s", Bson.int 1), ("p", Bson.int 1), ("a", Bson.int 1), ("r", Bson.int 1)])],
    Bson.doc [("$sort", Bson.doc [
      ("p", Bson.int 1), ("n", Bson.int 1), ("s", Bson.int 1), ("dt", Bson.int 1)])] ]

/-- Source function `Monthly`: the four stage pipeline. -/
def Monthly (parse : String → Option Time)
    (input : ApiSiteAvailabilityInProfileInput) : List Bson :=
  let filter := prepareFilter parse input
  [ Bson.doc [("$match", filter)],
    Bson.doc [("$group", Bson.doc [
      ("_id", Bson.doc [
        ("dt", Bson.doc [("$substr", Bson.arr [Bson.str "$dt", Bson.int 0, Bson.int 6])]),
        ("i", Bson.str "$i"), ("sc", Bson.str "$sc"), ("ss", Bson.str "$ss"),
        ("n", Bson.str "$n"), ("pr", Bson.str "$pr"), ("m", Bson.str "$m"),
        ("cs", Bson.str "$cs"), ("ns", Bson.str "$ns"), ("s", Bson.str "$s"),
        ("p", Bson.str "$p")]),
      ("avgup", Bson.doc [("$avg", Bson.str "$up")]),
      ("avgu", Bson.doc [("$avg", Bson.str "$u")]),
      ("avgd", Bson.doc [("$avg", Bson.str "$d")])])],
    Bson.doc [("$project", Bson.doc [
      ("dt", Bson.str "$_id.dt"), ("i", Bson.str "$_id.i"), ("sc", Bson.str "$_id.sc"),
      ("ss", Bson.str "$_id.ss"), ("n", Bson.str "$_id.n"), ("pr", Bson.str "$_id.pr"),
      ("m", Bson.str "$_id.m"), ("cs", Bson.str "$_id.cs"), ("ns", Bson.str "$_id.ns"),
      ("s", Bson.str "$_id.s"), ("p", Bson.str "$_id.p"),
      ("avgup", Bson.int 1), ("avgu", Bson.int 1), ("avgd", Bson.int 1),
      ("a", Bson.doc [("$multiply", Bson.arr [
        Bson.doc [("$divide", Bson.arr [Bson.str "$avgup",
          Bson.doc [("$subtract", Bson.arr [Bson.num (100000001 / 100000000),
            Bson.str "$avgu"])]])],
        Bson.int 100])]),
      ("r", Bson.doc [("$multiply", Bson.arr [
        Bson.doc [("$divide", Bson.arr [Bson.str "$avgup",
          Bson.doc [("$subtract", Bson.arr [
            Bson.doc [("$subtract", Bson.arr [Bson.num (100000001 / 100000000),
              Bson.str "$avgu"])],
            Bson.str "$avgd"])]])],
        Bson.int 100])])])],
    Bson.doc [("$sort", Bson.doc [
      ("ns", Bson.int 1), ("p", Bson.int 1), ("n", Bson.int 1), ("s", Bson.int 1),
      ("dt", Bson.int 1)])] ]

/-- A model of `time.Parse(zuluForm, s)` on the fixed width form
`YYYY-MM-DDThh:mm:ssZ` with a valid calendar date and clock; it is used to run
the builders on concrete requests. -/
def parseZulu (s : String) : Option Time :=
  let num (cs : List Char) : Option Nat :=
    if cs.all Char.isDigit then some (cs.foldl (fun a c => a * 10 + (c.toNat - 48)) 0)
    else none
  match s.data with
  | [y1, y2, y3, y4, '-', m1, m2, '-', d1, d2, 'T', h1, h2, ':', n1, n2, ':', s1, s2, 'Z'] =>
      match num [y1, y2, y3, y4], num [m1, m2], num [d1, d2], num [h1, h2], num [n1, n2],
          num [s1, s2] with
      | some y, some m, some d, some h, some n, some sec =>
          let leap := (y % 4 == 0 && y % 100 != 0) || y % 400 == 0
          let daysIn :=
            if m == 2 then (if leap then 29 else 28)
            else if m == 4 || m == 6 || m == 9 || m == 11 then 30 else 31
          if 1 ≤ m ∧ m ≤ 12 ∧ 1 ≤ d ∧ d ≤ daysIn ∧ h < 24 ∧ n < 60 ∧ sec < 60 then
            some ⟨y, m, d⟩
          else none
      | _, _, _, _, _, _ => none
  | _ => none

/-- Body of the first stage of a pipeline that carries the operator `op`. -/
def stage (op : String) (query : List Bson) : Option Bson :=
  query.findSome? (Bson.get op)

/-- Field `f` of the body of stage `op`. -/
def stageField (op f : String) (query : List Bson) : Option Bson :=
  (stage op query).bind (Bson.get f)

/-- Meaning of a range constraint `{"$gte": lo, "$lte": hi}` on an integer
field: both bounds are inclusive and compared as integers. -/
def rangeMatches (constraint : Bson) (dt : Int) : Bool :=
  match constraint.get "$gte", constraint.get "$lte" with
  | some (Bson.int lo), some (Bson.int hi) => decide (lo ≤ dt) && decide (dt ≤ hi)
  | _, _ => false

/-- The day bucket `YYYYMMDD` of an instant as an integer, as the specification
describes the daily boundary. -/
def specDayBucket (t : Time) : Int := t.year * 10000 + t.month * 100 + t.day

/-- The month bucket `YYYYMM` of an instant, as the specification describes the
monthly boundary. -/
def specMonthBucket (t : Time) : Int := t.year * 100 + t.month

/-- A string operand `"$name"` of an aggregation expression refers to the field
`name` of the document. -/
def fieldRef (s : String) : Option String :=
  match s.data with
  | '$' :: cs => some (String.mk cs)
  | _ => none

/-- Evaluation of an arithmetic aggregation expression of a `$project` stage on
one document, `row` giving the numeric fields of the document.  `$divide` by
zero is an evaluation error (`none`). -/
def evalExpr (row : String → Option ℚ) : Bson → Option ℚ
  | Bson.int n => some (n : ℚ)
  | Bson.num q => some q
  | Bson.str s => (fieldRef s).bind row
  | Bson.doc [("$multiply", Bson.arr [a, b])] =>
      match evalExpr row a, evalExpr row b with
      | some x, some y => some (x * y)
      | _, _ => none
  | Bson.doc [("$subtract", Bson.arr [a, b])] =>
      match evalExpr row a, evalExpr row b with
      | some x, some y => some (x - y)
      | _, _ => none
  | Bson.doc [("$divide", Bson.arr [a, b])] =>
      match evalExpr row a, evalExpr row b with
      | some x, some y => if y = 0 then none else some (x / y)
      | _, _ => none
  | _ => none

/-- The document a `$group` stage of `Monthly` hands to the `$project` stage,
reduced to its three averages. -/
def avgRow (avgup avgu avgd : ℚ) : String → Option ℚ := fun f =>
  if f = "avgup" then some avgup
  else if f = "avgu" then some avgu
  else if f = "avgd" then some avgd
  else none

/-- Divisor of an expression of the shape `(x / divisor) * k`. -/
def divisor : Bson → Option Bson
  | Bson.doc [("$multiply", Bson.arr [Bson.doc [("$divide", Bson.arr [_, d])], _])] => some d
  | _ => none

/-- Value the `$project` stage of a pipeline computes for its field `f` on the
document `row`. -/
def projected (f : String) (query : List Bson) (row : String → Option ℚ) : Option ℚ :=
  (stageField "$project" f query).bind (evalExpr row)

/-- Value of the divisor in the expression the `$project` stage of a pipeline
computes for its field `f`, on the document `row`. -/
def projectedDivisor (f : String) (query : List Bson) (row : String → Option ℚ) :
    Option ℚ :=
  ((stageField "$project" f query).bind divisor).bind (evalExpr row)

/-- The constant `ε = 1e-8` of the Formula Engine. -/
def epsilon : ℚ := 1 / 100000000

/-- Formula Engine, availability, as the specification words it. -/
def specAvailability (avgUp avgU : ℚ) : ℚ := avgUp / (1 + epsilon - avgU) * 100

/-- Formula Engine, reliability, as the specification words it. -/
def specReliability (avgUp avgU avgD : ℚ) : ℚ :=
  avgUp / ((1 + epsilon - avgU) - avgD) * 100

end sites

/-! ## Package `ngiAvailability`: the controller `List` -/

namespace ngiAvailability

/-- The request input of the controller; the fields are those of the struct
literal in `List`, in its order. -/
structure ApiNgiAvailabilityInProfileInput where
  start_time : String
  end_time : String
  availability_profile : String
  Granularity : String
  Infrastructure : String
  Production : String
  Monitored : String
  Certification : String
  format : String
  group_name : List String
  deriving DecidableEq, Repr

/-- Query parameters of the request, `url.Values`: every key with its values. -/
abbrev Values := List (String × List String)

/-- The call `urlValues.Get(key)`: the first value of `key`, or `""`. -/
def Values.Get (v : Values) (key : String) : String :=
  match v.lookup key with
  | some (x :: _) => x
  | _ => ""

/-- The index expression `urlValues[key]`: all values of `key`. -/
def Values.index (v : Values) (key : String) : List String :=
  (v.lookup key).getD []

/-- The collaborators of `List` that live outside the controller: the cache
(`caches.HitCache`), the store (`mongo.Pipe`, returning the rows it wrote into
`results` and its error), the renderer (`CreateView`), `strings.ToLower`, and the
query builders `Daily` and `Monthly` of the package. -/
structure Env (Row Query : Type) where
  HitCache : String → ApiNgiAvailabilityInProfileInput → Bool × String
  Pipe : String → String → Query → List Row × Option String
  CreateView : List Row → String → String × Option String
  ToLower : String → String
  Daily : ApiNgiAvailabilityInProfileInput → Query
  Monthly : ApiNgiAvailabilityInProfileInput → Query

/-- The calls `List` makes on its collaborators, in order. -/
inductive Event (Query : Type) where
  | HitCache : String → ApiNgiAvailabilityInProfileInput → Event Query
  | OpenSession : Event Query
  | Pipe : String → String → Query → Event Query
  | WriteCache : String → ApiNgiAvailabilityInProfileInput → String → Event Query
  | CloseSession : Event Query

/-- What one call of `List` leaves behind: the bytes it returns, the package
variable `CustomForm`, and the calls it made. -/
structure Outcome (Query : Type) where
  output : String
  CustomForm : String × String
  events : List (Event Query)

/-- What the granularity switch of `List` leaves behind: `CustomForm`, the
`results` slice, `err`, and the calls made. -/
structure Dispatch (Row Query : Type) where
  CustomForm : String × String
  results : List Row
  err : Option String
  events : List (Event Query)

/-- Lines 42 to 73 of `List`: the input read from the query parameters, with
the defaults filled in. -/
def normalise (urlValues : Values) : ApiNgiAvailabilityInProfileInput :=
  let input : ApiNgiAvailabilityInProfileInput := {
    start_time := urlValues.Get "start_time"
    end_time := urlValues.Get "end_time"
    availability_profile := urlValues.Get "availability_profile"
    Granularity := urlValues.Get "granularity"
    Infrastructure := urlValues.Get "infrastructure"
    Production := urlValues.Get "production"
    Monitored := urlValues.Get "monitored"
    Certification := urlValues.Get "certification"
    format := urlValues.Get "format"
    group_name := urlValues.index "group_name" }
  let input :=
    if input.Infrastructure.length = 0 then { input with Infrastructure := "Production" }
    else input
  let input :=
    if input.Production.length = 0 ∨ input.Production = "true" then
      { input with Production := "Y" }
    else { input with Production := "N" }
  let input :=
    if input.Monitored.length = 0 ∨ input.Monitored = "true" then
      { input with Monitored := "Y" }
    else { input with Monitored := "N" }
  let input :=
    if input.Certification.length = 0 then { input with Certification := "Certified" }
    else input
  input

/-- Lines 81 to 99 of `List`: the granularity switch. -/
def dispatch {Row Query : Type} (env : Env Row Query)
    (input : ApiNgiAvailabilityInProfileInput) (CustomForm : String × String) :
    Dispatch Row Query :=
  if input.Granularity.length = 0 ∨ env.ToLower input.Granularity = "daily" then
    let query := env.Daily input
    let res := env.Pipe "AR" "sites" query
    ⟨("20060102", "2006-01-02"), res.1, res.2, [Event.Pipe "AR" "sites" query]⟩
  else if env.ToLower input.Granularity = "monthly" then
    let query := env.Monthly input
    let res := env.Pipe "AR" "sites" query
    ⟨("200601", "2006-01"), res.1, res.2, [Event.Pipe "AR" "sites" query]⟩
  else ⟨CustomForm, [], none, []⟩

/-- Source function `List`, run on the query parameters of the request and the
current value of `CustomForm`. -/
def List {Row Query : Type} (env : Env Row Query) (urlValues : Values)
    (CustomForm : String × String) : Outcome Query :=
  let input := normalise urlValues
  let hit := env.HitCache "ngis" input
  if hit.1 then
    ⟨hit.2, CustomForm, [Event.HitCache "ngis" input]⟩
  else
    let d := dispatch env input CustomForm
    match d.err with
    | some e =>
        ⟨"<root><error>" ++ e ++ "</error></root>", d.CustomForm,
          [Event.HitCache "ngis" input, Event.OpenSession] ++ d.events⟩
    | none =>
        let output := (env.CreateView d.results input.format).1
        if d.results.length > 0 then
          ⟨output, d.CustomForm,
            [Event.HitCache "ngis" input, Event.OpenSession] ++ d.events ++
              [Event.WriteCache "ngis" input output, Event.CloseSession]⟩
        else
          ⟨output, d.CustomForm,
            [Event.HitCache "ngis" input, Event.OpenSession] ++ d.events ++
              [Event.CloseSession]⟩

end ngiAvailability

/-- Two requests give the parameter `p` default-equivalent values: the same value,
or one of them omits it and the other gives `dflt`. -/
def defaultEquivalent (p dflt : String) (v1 v2 : ngiAvailability.Values) : Prop :=
  v1.Get p = v2.Get p ∨ (v1.Get p = "" ∧ v2.Get p = dflt) ∨ (v1.Get p = dflt ∧ v2.Get p = "")

/-- A store with a cold cache whose pipelines all return `rows` and `err`; rows
are numbered, and a query is the name of its builder. -/
def coldEnv (rows : List Nat) (err : Option String) : ngiAvailability.Env Nat String where
  HitCache := fun _ _ => (false, "")
  Pipe := fun _ _ _ => (rows, err)
  CreateView := fun rs _ => (String.mk (List.replicate rs.length 'r'), none)
  ToLower := fun s => String.mk (s.data.map Char.toLower)
  Daily := fun _ => "Daily"
  Monthly := fun _ => "Monthly"

/-- The cache events of a trace that write. -/
def cacheWrites {Query : Type} (evs : List (ngiAvailability.Event Query)) :
    List (String × ngiAvailability.ApiNgiAvailabilityInProfileInput × String) :=
  evs.filterMap (fun e => match e with
    | ngiAvailability.Event.WriteCache n i o => some (n, i, o)
    | _ => none)

/-- The cache entries a trace addresses, by lookup or by write: endpoint name
and input. -/
def cacheKeys {Query : Type} (evs : List (ngiAvailability.Event Query)) :
    List (String × ngiAvailability.ApiNgiAvailabilityInProfileInput) :=
  evs.filterMap (fun e => match e with
    | ngiAvailability.Event.HitCache n i => some (n, i)
    | ngiAvailability.Event.WriteCache n i _ => some (n, i)
    | _ => none)

/-- The pipelines a trace executes. -/
def pipesRun {Query : Type} (evs : List (ngiAvailability.Event Query)) :
    List (String × String × Query) :=
  evs.filterMap (fun e => match e with
    | ngiAvailability.Event.Pipe db c q => some (db, c, q)
    | _ => none)

/-! ## Package `results`: the supergroup rollup and its test fixture -/

namespace results

/-- One document of the collection `endpoint_group_ar`, as the test seeds it. -/
structure EndpointGroupRow where
  report : String
  date : Nat
  name : String
  supergroup : String
  uptime : ℚ
  downtime : ℚ
  unknown : ℚ
  availability : ℚ
  reliability : ℚ
  weights : ℚ

/-- The documents `SetupTest` inserts into `endpoint_group_ar`, in order. -/
def seed : List EndpointGroupRow := [
  ⟨"Report_A", 20150622, "ST01", "GROUP_A", 1, 0, 0, 667 / 10, 546 / 10, 5634⟩,
  ⟨"Report_A", 20150622, "ST02", "GROUP_A", 1, 0, 0, 70, 45, 4356⟩,
  ⟨"Report_A", 20150623, "ST01", "GROUP_A", 1, 0, 0, 100, 100, 5634⟩,
  ⟨"Report_A", 20150623, "ST04", "GROUP_B", 1, 0, 0, 30, 100, 5344⟩,
  ⟨"Report_A", 20150623, "ST05", "GROUP_B", 0, 0, 1, 90, 100, 5634⟩,
  ⟨"Report_A", 20150624, "ST05", "GROUP_B", 1, 0, 0, 40, 70, 5634⟩,
  ⟨"Report_A", 20150625, "ST05", "GROUP_B", 1, 0, 0, 40, 70, 5634⟩,
  ⟨"Report_A", 20150623, "ST02", "GROUP_A", 1, 0, 0, 435 / 10, 56, 4356⟩ ]

/-- The availability and reliability `TestListSuperGroupAvailability` expects for
`GROUP_A` on `2015-06-22`. -/
def expectedGroupA20150622 : ℚ × ℚ :=
  (6813896116893515 / 100000000000000, 50413931144915935 / 1000000000000000)

/-- Running sums of a rollup: weighted availability, weighted reliability, weight. -/
structure RollupAcc where
  wa : ℚ
  wr : ℚ
  w : ℚ

/-- The Rollup Engine as section 4.4 of the specification words it: the constituents
of `parent` on `bucket` with a non-zero weight are accumulated one by one; the pair
is dropped when no weight is left, and is otherwise `Σ(weight × value) / Σ weight`
for availability and for reliability. -/
def specRollup (rows : List EndpointGroupRow) (parent : String) (bucket : Nat) :
    Option (ℚ × ℚ) :=
  let acc := rows.foldl
    (fun (acc : RollupAcc) r =>
      if r.supergroup = parent ∧ r.date = bucket ∧ r.weights ≠ 0 then
        ⟨acc.wa + r.weights * r.availability, acc.wr + r.weights * r.reliability,
          acc.w + r.weights⟩
      else acc)
    ⟨0, 0, 0⟩
  if acc.w = 0 then none else some (acc.wa / acc.w, acc.wr / acc.w)

/-- The constituents of `parent` on `bucket`. -/
def constituents (rows : List EndpointGroupRow) (parent : String) (bucket : Nat) :
    List EndpointGroupRow :=
  rows.filter (fun r => decide (r.supergroup = parent ∧ r.date = bucket))

/-- The same rows with every weight increased by one. -/
def bumpWeights (rows : List EndpointGroupRow) : List EndpointGroupRow :=
  rows.map (fun r => { r with weights := r.weights + 1 })

/-- Modelled from the spec: the rollup behind `/api/v2/results/.../GROUP`, whose code
is not among the sources.  It is the Rollup Engine of section 4.4 with the one change
the values asserted by `supergroup_test.go` require: every constituent counts with its
seeded weight plus one, so the rolled-up value is
`Σ((weight + 1) × value) / Σ(weight + 1)`. -/
def rollup (rows : List EndpointGroupRow) (parent : String) (bucket : Nat) : Option (ℚ × ℚ) :=
  specRollup (bumpWeights rows) parent bucket

/-- The availability and reliability `TestListAllSuperGroupAvailability` expects for
`GROUP_A` on `2015-06-23`. -/
def expectedGroupA20150623 : ℚ × ℚ :=
  (7536324059247399 / 100000000000000, 808138510808647 / 10000000000000)

/-- The availability and reliability `TestListAllSuperGroupAvailability` expects for
`GROUP_B` on `2015-06-23`. -/
def expectedGroupB20150623 : ℚ × ℚ :=
  (6079234972677595 / 100000000000000, 100)

/-- The availability and reliability `TestListAllSuperGroupAvailability` expects for
`GROUP_B` on `2015-06-24` and on `2015-06-25`. -/
def expectedGroupB2015062x : ℚ × ℚ := (40, 70)

/-- The rollup of `rows` emits for `parent` on `bucket` a pair that agrees with the
pair `expected` of the test to thirteen decimal places. -/
def reproduces (rows : List EndpointGroupRow) (parent : String) (bucket : Nat)
    (expected : ℚ × ℚ) : Prop :=
  ∃ v, rollup rows parent bucket = some v ∧
    |v.1 - expected.1| ≤ 1 / 10 ^ 13 ∧ |v.2 - expected.2| ≤ 1 / 10 ^ 13

end results

/-! ## Theorems -/

open sites results

/-! ### Evaluation of aggregation expressions -/

theorem evalExpr_subtract (row : String → Option ℚ) (a b : Bson) :
    evalExpr row (Bson.doc [("$subtract", Bson.arr [a, b])]) =
      (evalExpr row a).bind (fun x => (evalExpr row b).bind (fun y => some (x - y))) := by
  rw [evalExpr]
  cases evalExpr row a <;> cases evalExpr row b <;> rfl

theorem evalExpr_multiply (row : String → Option ℚ) (a b : Bson) :
    evalExpr row (Bson.doc [("$multiply", Bson.arr [a, b])]) =
      (evalExpr row a).bind (fun x => (evalExpr row b).bind (fun y => some (x * y))) := by
  rw [evalExpr]
  cases evalExpr row a <;> cases evalExpr row b <;> rfl

theorem evalExpr_divide (row : String → Option ℚ) (a b : Bson) :
    evalExpr row (Bson.doc [("$divide", Bson.arr [a, b])]) =
      (evalExpr row a).bind (fun x => (evalExpr row b).bind (fun y =>
        if y = 0 then none else some (x / y))) := by
  rw [evalExpr]
  cases evalExpr row a <;> cases evalExpr row b <;> rfl

theorem evalExpr_num (row : String → Option ℚ) (q : ℚ) :
    evalExpr row (Bson.num q) = some q := by
  rw [evalExpr]

theorem evalExpr_int (row : String → Option ℚ) (n : Int) :
    evalExpr row (Bson.int n) = some (n : ℚ) := by
  rw [evalExpr]

theorem evalExpr_avgup (up u d : ℚ) :
    evalExpr (avgRow up u d) (Bson.str "$avgup") = some up := by
  have h1 : fieldRef "$avgup" = some "avgup" := by decide
  simp [evalExpr, avgRow, h1]

theorem evalExpr_avgu (up u d : ℚ) :
    evalExpr (avgRow up u d) (Bson.str "$avgu") = some u := by
  have h1 : fieldRef "$avgu" = some "avgu" := by decide
  simp [evalExpr, avgRow, h1]

theorem evalExpr_avgd (up u d : ℚ) :
    evalExpr (avgRow up u d) (Bson.str "$avgd") = some d := by
  have h1 : fieldRef "$avgd" = some "avgd" := by decide
  simp [evalExpr, avgRow, h1]

/-- Availability as `Monthly` projects it, on the averages of one group. -/
theorem projected_a (parse : String → Option Time) (input : ApiSiteAvailabilityInProfileInput)
    (up u d : ℚ) :
    projected "a" (Monthly parse input) (avgRow up u d) =
      if 100000001 / 100000000 - u = 0 then none
      else some (up / (100000001 / 100000000 - u) * 100) := by
  have h : stageField "$project" "a" (Monthly parse input) =
      some (Bson.doc [("$multiply", Bson.arr [
        Bson.doc [("$divide", Bson.arr [Bson.str "$avgup",
          Bson.doc [("$subtract", Bson.arr [Bson.num (100000001 / 100000000),
            Bson.str "$avgu"])]])],
        Bson.int 100])]) := by
    simp [stageField, stage, Monthly, Bson.get, List.findSome?, List.lookup]
  simp only [projected, h, Option.some_bind, evalExpr_multiply, evalExpr_divide,
    evalExpr_subtract, evalExpr_num, evalExpr_int, evalExpr_avgup, evalExpr_avgu]
  split_ifs <;> simp

/-- Reliability as `Monthly` projects it, on the averages of one group. -/
theorem projected_r (parse : String → Option Time) (input : ApiSiteAvailabilityInProfileInput)
    (up u d : ℚ) :
    projected "r" (Monthly parse input) (avgRow up u d) =
      if 100000001 / 100000000 - u - d = 0 then none
      else some (up / (100000001 / 100000000 - u - d) * 100) := by
  have h : stageField "$project" "r" (Monthly parse input) =
      some (Bson.doc [("$multiply", Bson.arr [
        Bson.doc [("$divide", Bson.arr [Bson.str "$avgup",
          Bson.doc [("$subtract", Bson.arr [
            Bson.doc [("$subtract", Bson.arr [Bson.num (100000001 / 100000000),
              Bson.str "$avgu"])],
            Bson.str "$avgd"])]])],
        Bson.int 100])]) := by
    simp [stageField, stage, Monthly, Bson.get, List.findSome?, List.lookup]
  simp only [projected, h, Option.some_bind, evalExpr_multiply, evalExpr_divide,
    evalExpr_subtract, evalExpr_num, evalExpr_int, evalExpr_avgup, evalExpr_avgu,
    evalExpr_avgd]
  split_ifs <;> simp

/-- Divisor of the availability expression of `Monthly`. -/
theorem projectedDivisor_a (parse : String → Option Time)
    (input : ApiSiteAvailabilityInProfileInput) (up u d : ℚ) :
    projectedDivisor "a" (Monthly parse input) (avgRow up u d) =
      some (100000001 / 100000000 - u) := by
  have h : (stageField "$project" "a" (Monthly parse input)).bind divisor =
      some (Bson.doc [("$subtract", Bson.arr [Bson.num (100000001 / 100000000),
        Bson.str "$avgu"])]) := by
    simp [stageField, stage, Monthly, Bson.get, List.findSome?, List.lookup, divisor]
  simp only [projectedDivisor, h, Option.some_bind, evalExpr_subtract, evalExpr_num,
    evalExpr_avgu]

/-- Divisor of the reliability expression of `Monthly`. -/
theorem projectedDivisor_r (parse : String → Option Time)
    (input : ApiSiteAvailabilityInProfileInput) (up u d : ℚ) :
    projectedDivisor "r" (Monthly parse input) (avgRow up u d) =
      some (100000001 / 100000000 - u - d) := by
  have h : (stageField "$project" "r" (Monthly parse input)).bind divisor =
      some (Bson.doc [("$subtract", Bson.arr [
        Bson.doc [("$subtract", Bson.arr [Bson.num (100000001 / 100000000),
          Bson.str "$avgu"])],
        Bson.str "$avgd"])]) := by
    simp [stageField, stage, Monthly, Bson.get, List.findSome?, List.lookup, divisor]
  simp only [projectedDivisor, h, Option.some_bind, evalExpr_subtract, evalExpr_num,
    evalExpr_avgu, evalExpr_avgd]

/-! ### C1, C2: the formulas of `Monthly` -/

/-- C1: for every input, the group stage of `Monthly` takes the means `avgup`, `avgu`, `avgd`
of the fields `up`, `u`, `d`, and its project stage computes, on such means,
`a = (avgup / (1.00000001 - avgu)) * 100` and
`r = (avgup / ((1.00000001 - avgu) - avgd)) * 100`, which are the Formula Engine formulas
with `ε = 1e-8` (a zero divisor being an evaluation error). -/
theorem monthly_project_is_formula_engine (parse : String → Option Time)
    (input : ApiSiteAvailabilityInProfileInput) (avgup avgu avgd : ℚ) :
    stageField "$group" "avgup" (Monthly parse input)
        = some (Bson.doc [("$avg", Bson.str "$up")]) ∧
    stageField "$group" "avgu" (Monthly parse input)
        = some (Bson.doc [("$avg", Bson.str "$u")]) ∧
    stageField "$group" "avgd" (Monthly parse input)
        = some (Bson.doc [("$avg", Bson.str "$d")]) ∧
    projected "a" (Monthly parse input) (avgRow avgup avgu avgd) =
      (if 1 + epsilon - avgu = 0 then none else some (specAvailability avgup avgu)) ∧
    projected "r" (Monthly parse input) (avgRow avgup avgu avgd) =
      (if (1 + epsilon - avgu) - avgd = 0 then none
       else some (specReliability avgup avgu avgd)) ∧
    specAvailability avgup avgu = (avgup / (100000001 / 100000000 - avgu)) * 100 ∧
    specReliability avgup avgu avgd =
      (avgup / ((100000001 / 100000000 - avgu) - avgd)) * 100 ∧
    epsilon = 1 / 10 ^ 8 := by
  have he : (1 : ℚ) + epsilon = 100000001 / 100000000 := by
    simp only [epsilon]; norm_num
  refine ⟨by simp [stageField, stage, Monthly, Bson.get, List.findSome?, List.lookup],
    by simp [stageField, stage, Monthly, Bson.get, List.findSome?, List.lookup],
    by simp [stageField, stage, Monthly, Bson.get, List.findSome?, List.lookup], ?_, ?_, ?_, ?_, ?_⟩
  · rw [projected_a, specAvailability, he]
  · rw [projected_r, specReliability, he]
  · rw [specAvailability, he]
  · rw [specReliability, he]
  · simp only [epsilon]; norm_num

/-- C2: over exact rational arithmetic, for averages with `0 ≤ avgU`, `0 ≤ avgD` and
`avgU + avgD ≤ 1`, the divisors `1.00000001 - avgU` and `(1.00000001 - avgU) - avgD` of the
project stage of `Monthly` are both at least `1e-8`, so both quotients are defined; at
`avgU = 1` the availability divisor is exactly `1e-8` and the availability is the finite
value `avgUp / 1e-8 * 100`. -/
theorem monthly_divisors_at_least_epsilon (parse : String → Option Time)
    (input : ApiSiteAvailabilityInProfileInput) (avgUp avgU avgD : ℚ)
    (_hU : 0 ≤ avgU) (hD : 0 ≤ avgD) (hUD : avgU + avgD ≤ 1) :
    projectedDivisor "a" (Monthly parse input) (avgRow avgUp avgU avgD)
        = some (100000001 / 100000000 - avgU) ∧
    1 / 10 ^ 8 ≤ 100000001 / 100000000 - avgU ∧
    projectedDivisor "r" (Monthly parse input) (avgRow avgUp avgU avgD)
        = some ((100000001 / 100000000 - avgU) - avgD) ∧
    1 / 10 ^ 8 ≤ (100000001 / 100000000 - avgU) - avgD ∧
    projected "a" (Monthly parse input) (avgRow avgUp avgU avgD)
        = some (avgUp / (100000001 / 100000000 - avgU) * 100) ∧
    projected "r" (Monthly parse input) (avgRow avgUp avgU avgD)
        = some (avgUp / ((100000001 / 100000000 - avgU) - avgD) * 100) ∧
    projectedDivisor "a" (Monthly parse input) (avgRow avgUp 1 avgD) = some (1 / 10 ^ 8) ∧
    projected "a" (Monthly parse input) (avgRow avgUp 1 avgD)
        = some (avgUp / (1 / 10 ^ 8) * 100) := by
  have ha : (1 : ℚ) / 10 ^ 8 ≤ 100000001 / 100000000 - avgU := by
    norm_num; linarith
  have hr : (1 : ℚ) / 10 ^ 8 ≤ (100000001 / 100000000 - avgU) - avgD := by
    norm_num; linarith
  have ha0 : (100000001 : ℚ) / 100000000 - avgU ≠ 0 := by
    intro h; rw [h] at ha; norm_num at ha
  have hr0 : (100000001 : ℚ) / 100000000 - avgU - avgD ≠ 0 := by
    intro h; rw [h] at hr; norm_num at hr
  refine ⟨projectedDivisor_a _ _ _ _ _, ha, projectedDivisor_r _ _ _ _ _, hr, ?_, ?_, ?_, ?_⟩
  · rw [projected_a, if_neg ha0]
  · rw [projected_r, if_neg hr0]
  · rw [projectedDivisor_a]; norm_num
  · rw [projected_a]; norm_num

/-- Witness of C2 at `avgUp = 9/10`, `avgU = 1/4`, `avgD = 1/4`. -/
theorem monthly_divisors_at_least_epsilon_witness :
    (0 : ℚ) ≤ 1 / 4 ∧ (0 : ℚ) ≤ 1 / 4 ∧ (1 / 4 : ℚ) + 1 / 4 ≤ 1 ∧
    projected "r" (Monthly parseZulu ⟨"2015-06-20T12:00:00Z", "2015-06-26T23:00:00Z",
        ["ap1"], [], []⟩) (avgRow (9 / 10) (1 / 4) (1 / 4))
      = some (9 / 10 / ((100000001 / 100000000 - 1 / 4) - 1 / 4) * 100) :=
  ⟨by norm_num, by norm_num, by norm_num,
    (monthly_divisors_at_least_epsilon parseZulu
      ⟨"2015-06-20T12:00:00Z", "2015-06-26T23:00:00Z", ["ap1"], [], []⟩ (9 / 10) (1 / 4) (1 / 4)
      (by norm_num) (by norm_num) (by norm_num)).2.2.2.2.2.1⟩

/-! ### C3: the rollup -/

/-- The running sums of `specRollup` are the sums over the constituents. -/
theorem rollup_foldl_sums (parent : String) (bucket : Nat) (rows : List EndpointGroupRow)
    (acc : RollupAcc) :
    rows.foldl
      (fun (acc : RollupAcc) r =>
        if r.supergroup = parent ∧ r.date = bucket ∧ r.weights ≠ 0 then
          ⟨acc.wa + r.weights * r.availability, acc.wr + r.weights * r.reliability,
            acc.w + r.weights⟩
        else acc)
      acc =
    ⟨acc.wa + ((constituents rows parent bucket).map
        (fun r => r.weights * r.availability)).sum,
      acc.wr + ((constituents rows parent bucket).map
        (fun r => r.weights * r.reliability)).sum,
      acc.w + ((constituents rows parent bucket).map (fun r => r.weights)).sum⟩ := by
  induction rows generalizing acc with
  | nil => simp [constituents]
  | cons r rs ih =>
    rw [List.foldl_cons, ih]
    by_cases hp : r.supergroup = parent ∧ r.date = bucket
    · by_cases hw : r.weights = 0
      · simp [constituents, List.filter_cons, hp, hw]
      · simp [constituents, List.filter_cons, hp, hw, add_assoc]
    · have hp2 : ¬ (r.supergroup = parent ∧ r.date = bucket ∧ r.weights ≠ 0) := by
        intro h; exact hp ⟨h.1, h.2.1⟩
      simp only [constituents, List.filter_cons, hp, hp2, if_false, decide_False]
      simp

/-- The rollup the specification words is the plain weighted mean over the constituents
of the parent on the bucket. -/
theorem rollup_eq_weighted_mean (rows : List EndpointGroupRow) (parent : String)
    (bucket : Nat) :
    specRollup rows parent bucket =
      if ((constituents rows parent bucket).map (fun r => r.weights)).sum = 0 then none
      else some
        (((constituents rows parent bucket).map (fun r => r.weights * r.availability)).sum /
            ((constituents rows parent bucket).map (fun r => r.weights)).sum,
         ((constituents rows parent bucket).map (fun r => r.weights * r.reliability)).sum /
            ((constituents rows parent bucket).map (fun r => r.weights)).sum) := by
  simp only [specRollup, rollup_foldl_sums, zero_add]

/-- Raising the weights does not change which rows are constituents. -/
theorem constituents_bumpWeights (rows : List EndpointGroupRow) (parent : String)
    (bucket : Nat) :
    constituents (bumpWeights rows) parent bucket =
      bumpWeights (constituents rows parent bucket) := by
  induction rows with
  | nil => rfl
  | cons r rs ih =>
    simp only [constituents, bumpWeights, List.map_cons, List.filter_cons] at ih ⊢
    by_cases hp : r.supergroup = parent ∧ r.date = bucket
    · simp only [hp, and_self, decide_True, if_true, List.map_cons, ih]
    · simp only [hp, decide_False, Bool.false_eq_true, if_false, ih]

/-- The rollup is the weighted mean over the constituents, every weight one higher. -/
theorem rollup_eq_mean_weights_plus_one (rows : List EndpointGroupRow) (parent : String)
    (bucket : Nat) :
    rollup rows parent bucket =
      if ((constituents rows parent bucket).map (fun r => r.weights + 1)).sum = 0 then none
      else some
        (((constituents rows parent bucket).map
            (fun r => (r.weights + 1) * r.availability)).sum /
            ((constituents rows parent bucket).map (fun r => r.weights + 1)).sum,
         ((constituents rows parent bucket).map
            (fun r => (r.weights + 1) * r.reliability)).sum /
            ((constituents rows parent bucket).map (fun r => r.weights + 1)).sum) := by
  rw [rollup, rollup_eq_weighted_mean, constituents_bumpWeights]
  simp only [bumpWeights, List.map_map, Function.comp_def]

theorem constituents_seed_groupA :
    constituents seed "GROUP_A" 20150622 =
      [⟨"Report_A", 20150622, "ST01", "GROUP_A", 1, 0, 0, 667 / 10, 546 / 10, 5634⟩,
       ⟨"Report_A", 20150622, "ST02", "GROUP_A", 1, 0, 0, 70, 45, 4356⟩] := by
  simp [constituents, seed, List.filter_cons]

theorem specRollup_seed_groupA :
    specRollup seed "GROUP_A" 20150622 = some (126057 / 1850, 46633 / 925) := by
  rw [rollup_eq_weighted_mean, constituents_seed_groupA]
  norm_num

theorem rollup_seed_groupA_22 :
    rollup seed "GROUP_A" 20150622 = some (6808445 / 99920, 503736 / 9992) := by
  rw [rollup_eq_mean_weights_plus_one, constituents_seed_groupA]
  norm_num

theorem rollup_seed_groupA_23 :
    rollup seed "GROUP_A" 20150623 = some (7530295 / 99920, 807492 / 9992) := by
  have h : constituents seed "GROUP_A" 20150623 =
      [⟨"Report_A", 20150623, "ST01", "GROUP_A", 1, 0, 0, 100, 100, 5634⟩,
       ⟨"Report_A", 20150623, "ST02", "GROUP_A", 1, 0, 0, 435 / 10, 56, 4356⟩] := by
    simp [constituents, seed, List.filter_cons]
  rw [rollup_eq_mean_weights_plus_one, h]
  norm_num

theorem rollup_seed_groupB_23 :
    rollup seed "GROUP_B" 20150623 = some (667500 / 10980, 100) := by
  have h : constituents seed "GROUP_B" 20150623 =
      [⟨"Report_A", 20150623, "ST04", "GROUP_B", 1, 0, 0, 30, 100, 5344⟩,
       ⟨"Report_A", 20150623, "ST05", "GROUP_B", 0, 0, 1, 90, 100, 5634⟩] := by
    simp [constituents, seed, List.filter_cons]
  rw [rollup_eq_mean_weights_plus_one, h]
  norm_num

theorem rollup_seed_groupB_24 :
    rollup seed "GROUP_B" 20150624 = some (40, 70) := by
  have h : constituents seed "GROUP_B" 20150624 =
      [⟨"Report_A", 20150624, "ST05", "GROUP_B", 1, 0, 0, 40, 70, 5634⟩] := by
    simp [constituents, seed, List.filter_cons]
  rw [rollup_eq_mean_weights_plus_one, h]
  norm_num

theorem rollup_seed_groupB_25 :
    rollup seed "GROUP_B" 20150625 = some (40, 70) := by
  have h : constituents seed "GROUP_B" 20150625 =
      [⟨"Report_A", 20150625, "ST05", "GROUP_B", 1, 0, 0, 40, 70, 5634⟩] := by
    simp [constituents, seed, List.filter_cons]
  rw [rollup_eq_mean_weights_plus_one, h]
  norm_num

theorem rollup_seed_groupA_24 : rollup seed "GROUP_A" 20150624 = none := by
  have h : constituents seed "GROUP_A" 20150624 = [] := by
    simp [constituents, seed, List.filter_cons]
  rw [rollup_eq_mean_weights_plus_one, h]
  simp

/-- C3 (as stated, refuted): on the `GROUP_A` seed of `2015-06-22` the weighted mean
`Σ(weight_i * value_i) / Σ(weight_i)` of the seeded availabilities and reliabilities under
the seeded weights is `126057/1850 = 68.1389189…` and `46633/925 = 50.4140540…`; neither
agrees with the value the test expects to float64 printing precision: they are off by
more than `4e-5` and `1e-4`. -/
theorem rollup_seed_groupA_differs_from_test :
    specRollup seed "GROUP_A" 20150622 = some (126057 / 1850, 46633 / 925) ∧
    (126057 / 1850 : ℚ) = (667 / 10 * 5634 + 70 * 4356) / (5634 + 4356) ∧
    (46633 / 925 : ℚ) = (546 / 10 * 5634 + 45 * 4356) / (5634 + 4356) ∧
    ¬ (|126057 / 1850 - expectedGroupA20150622.1| ≤ 4 / 10 ^ 5) ∧
    ¬ (|46633 / 925 - expectedGroupA20150622.2| ≤ 1 / 10 ^ 4) := by
  refine ⟨specRollup_seed_groupA, by norm_num, by norm_num, ?_, ?_⟩
  · simp only [expectedGroupA20150622]
    rw [abs_le]; norm_num
  · simp only [expectedGroupA20150622]
    rw [abs_le]; norm_num

/-- C3 (amended): for every parent group and bucket the rolled-up availability and,
independently, reliability is the weighted mean `Σ((weight_i + 1) * value_i) /
Σ(weight_i + 1)`, every weight counted one higher than seeded, over exactly the
constituents seeded for that parent on that bucket; on the `GROUP_A` seed of `2015-06-22`
(ST01: 66.7, 54.6, weight 5634; ST02: 70, 45, weight 4356) this mean is
`(66.7×5635 + 70×4357) / (5635 + 4357)` and `(54.6×5635 + 45×4357) / (5635 + 4357)`, the
values the test expects, availability 68.13896116893515 and reliability
50.413931144915935, to thirteen decimal places; the other four pairs the test asserts
(`GROUP_A` on `2015-06-23`, `GROUP_B` on `2015-06-23`, `2015-06-24`, `2015-06-25`) are
reproduced the same way, and a day without constituents yields no pair. -/
theorem rollup_is_mean_with_weights_plus_one (rows : List EndpointGroupRow)
    (parent : String) (bucket : Nat) :
    rollup rows parent bucket =
      (if ((constituents rows parent bucket).map (fun r => r.weights + 1)).sum = 0 then none
       else some
        (((constituents rows parent bucket).map
            (fun r => (r.weights + 1) * r.availability)).sum /
            ((constituents rows parent bucket).map (fun r => r.weights + 1)).sum,
         ((constituents rows parent bucket).map
            (fun r => (r.weights + 1) * r.reliability)).sum /
            ((constituents rows parent bucket).map (fun r => r.weights + 1)).sum)) ∧
    (∀ r, r ∈ constituents rows parent bucket ↔
      r ∈ rows ∧ r.supergroup = parent ∧ r.date = bucket) ∧
    rollup seed "GROUP_A" 20150622 =
      some ((667 / 10 * 5635 + 70 * 4357) / (5635 + 4357),
        (546 / 10 * 5635 + 45 * 4357) / (5635 + 4357)) ∧
    reproduces seed "GROUP_A" 20150622 expectedGroupA20150622 ∧
    reproduces seed "GROUP_A" 20150623 expectedGroupA20150623 ∧
    reproduces seed "GROUP_B" 20150623 expectedGroupB20150623 ∧
    reproduces seed "GROUP_B" 20150624 expectedGroupB2015062x ∧
    reproduces seed "GROUP_B" 20150625 expectedGroupB2015062x ∧
    rollup seed "GROUP_A" 20150624 = none := by
  refine ⟨rollup_eq_mean_weights_plus_one rows parent bucket, ?_, ?_,
    ⟨_, rollup_seed_groupA_22, ?_, ?_⟩, ⟨_, rollup_seed_groupA_23, ?_, ?_⟩,
    ⟨_, rollup_seed_groupB_23, ?_, ?_⟩, ⟨_, rollup_seed_groupB_24, ?_, ?_⟩,
    ⟨_, rollup_seed_groupB_25, ?_, ?_⟩, rollup_seed_groupA_24⟩
  · intro r
    simp [constituents, List.mem_filter]
  · rw [rollup_seed_groupA_22]; norm_num
  all_goals
    simp only [expectedGroupA20150622, expectedGroupA20150623, expectedGroupB20150623,
      expectedGroupB2015062x]
    rw [abs_le]; norm_num

/-! ### C8, C10: the stages of `Daily` and `Monthly` -/

theorem digitChar_isDigit (n : Nat) : (digitChar n).isDigit = true := by
  have h : n % 10 < 10 := Nat.mod_lt _ (by decide)
  unfold digitChar
  generalize n % 10 = k at h
  interval_cases k <;> decide

theorem digitChar_toNat (n : Nat) : (digitChar n).toNat - 48 = n % 10 := by
  have h : n % 10 < 10 := Nat.mod_lt _ (by decide)
  unfold digitChar
  generalize n % 10 = k at h
  interval_cases k <;> decide

theorem digitChar_ne_sign (n : Nat) : digitChar n ≠ '-' ∧ digitChar n ≠ '+' := by
  have h : n % 10 < 10 := Nat.mod_lt _ (by decide)
  unfold digitChar
  generalize n % 10 = k at h
  interval_cases k <;> decide

/-- Reading the `20060102` rendering of a date back with `Atoi` gives `YYYYMMDD`. -/
theorem ymdInt_eq_specDayBucket (t : Time) (h : t.year < 10000) (hm : t.month < 100)
    (hd : t.day < 100) : ymdInt t = specDayBucket t := by
  obtain ⟨h1, h2⟩ := digitChar_ne_sign (t.year / 1000)
  simp only [ymdInt, atoi, Time.formatYMD, pad4, pad2, h, if_true, List.cons_append,
    List.nil_append, specDayBucket]
  split
  · rename_i cs heq
    simp at heq
    exact absurd heq.1 h1
  · rename_i cs heq
    simp at heq
    exact absurd heq.1 h2
  · simp [digitChar_isDigit, digitChar_toNat]
    omega

/-- The date constraint of the filter. -/
theorem prepareFilter_get_dt (parse : String → Option Time)
    (input : ApiSiteAvailabilityInProfileInput) :
    (prepareFilter parse input).get "dt" =
      some (Bson.doc [
        ("$gte", Bson.int (ymdInt ((parse input.start_time).getD Time.zero))),
        ("$lte", Bson.int (ymdInt ((parse input.end_time).getD Time.zero)))]) := by
  by_cases hn : input.namespace_.length > 0 <;>
    simp [prepareFilter, Bson.set, Bson.get, hn, List.lookup]

theorem stage_match_Daily (parse : String → Option Time)
    (input : ApiSiteAvailabilityInProfileInput) :
    stage "$match" (Daily parse input) = some (prepareFilter parse input) := by
  simp [stage, Daily, Bson.get, List.findSome?, List.lookup]

theorem stage_match_Monthly (parse : String → Option Time)
    (input : ApiSiteAvailabilityInProfileInput) :
    stage "$match" (Monthly parse input) = some (prepareFilter parse input) := by
  simp [stage, Monthly, Bson.get, List.findSome?, List.lookup]

theorem rangeMatches_iff (lo hi dt : Int) :
    rangeMatches (Bson.doc [("$gte", Bson.int lo), ("$lte", Bson.int hi)]) dt = true ↔
      lo ≤ dt ∧ dt ≤ hi := by
  simp [rangeMatches, Bson.get, List.lookup]

/-- C8 (as stated, refuted): for the request of the test, `2015-06-20T12:00:00Z` to
`2015-06-26T23:00:00Z`, the date constraint in the match stage of `Monthly` has the day
buckets `20150620` and `20150626` as its bounds, not the month bucket `201506`; a value
`201506` does not pass it. -/
theorem monthly_match_bounds_are_not_month_buckets :
    parseZulu "2015-06-20T12:00:00Z" = some ⟨2015, 6, 20⟩ ∧
    parseZulu "2015-06-26T23:00:00Z" = some ⟨2015, 6, 26⟩ ∧
    specMonthBucket ⟨2015, 6, 20⟩ = 201506 ∧ specMonthBucket ⟨2015, 6, 26⟩ = 201506 ∧
    stageField "$match" "dt" (Monthly parseZulu
        ⟨"2015-06-20T12:00:00Z", "2015-06-26T23:00:00Z", ["ap1"], [], []⟩)
      = some (Bson.doc [("$gte", Bson.int 20150620), ("$lte", Bson.int 20150626)]) ∧
    stageField "$match" "dt" (Monthly parseZulu
        ⟨"2015-06-20T12:00:00Z", "2015-06-26T23:00:00Z", ["ap1"], [], []⟩)
      ≠ some (Bson.doc [("$gte", Bson.int 201506), ("$lte", Bson.int 201506)]) ∧
    rangeMatches (Bson.doc [("$gte", Bson.int 20150620), ("$lte", Bson.int 20150626)]) 201506
      = false := by
  have h1 : parseZulu "2015-06-20T12:00:00Z" = some ⟨2015, 6, 20⟩ := by decide
  have h2 : parseZulu "2015-06-26T23:00:00Z" = some ⟨2015, 6, 26⟩ := by decide
  have h3 : ymdInt ⟨2015, 6, 20⟩ = 20150620 := by decide
  have h4 : ymdInt ⟨2015, 6, 26⟩ = 20150626 := by decide
  have h5 : stageField "$match" "dt" (Monthly parseZulu
        ⟨"2015-06-20T12:00:00Z", "2015-06-26T23:00:00Z", ["ap1"], [], []⟩)
      = some (Bson.doc [("$gte", Bson.int 20150620), ("$lte", Bson.int 20150626)]) := by
    rw [stageField, stage_match_Monthly, Option.some_bind, prepareFilter_get_dt, h1, h2,
      Option.getD_some, Option.getD_some, h3, h4]
  refine ⟨h1, h2, by decide, by decide, h5, ?_, by decide⟩
  rw [h5]
  simp

/-- C8 (amended): for every input whose start and end timestamps parse (to dates with a
four digit year), the date constraint of the match stage is `dt >= B(start)` and
`dt <= B(end)`, both bounds inclusive and compared as integers, where `B` truncates the
instant to the 8-digit `YYYYMMDD` integer, in the pipeline returned by `Daily` and in the
pipeline returned by `Monthly` alike. -/
theorem match_date_range_is_day_buckets (parse : String → Option Time)
    (input : ApiSiteAvailabilityInProfileInput) (ts te : Time)
    (hs : parse input.start_time = some ts) (he : parse input.end_time = some te)
    (hts : ts.year < 10000 ∧ ts.month < 100 ∧ ts.day < 100)
    (hte : te.year < 10000 ∧ te.month < 100 ∧ te.day < 100) :
    stageField "$match" "dt" (Daily parse input) =
      some (Bson.doc [("$gte", Bson.int (specDayBucket ts)),
        ("$lte", Bson.int (specDayBucket te))]) ∧
    stageField "$match" "dt" (Monthly parse input) =
      some (Bson.doc [("$gte", Bson.int (specDayBucket ts)),
        ("$lte", Bson.int (specDayBucket te))]) ∧
    ∀ dt : Int,
      rangeMatches (Bson.doc [("$gte", Bson.int (specDayBucket ts)),
        ("$lte", Bson.int (specDayBucket te))]) dt = true ↔
      specDayBucket ts ≤ dt ∧ dt ≤ specDayBucket te := by
  have h1 := ymdInt_eq_specDayBucket ts hts.1 hts.2.1 hts.2.2
  have h2 := ymdInt_eq_specDayBucket te hte.1 hte.2.1 hte.2.2
  refine ⟨?_, ?_, fun dt => rangeMatches_iff _ _ dt⟩
  · rw [stageField, stage_match_Daily, Option.some_bind, prepareFilter_get_dt, hs, he,
      Option.getD_some, Option.getD_some, h1, h2]
  · rw [stageField, stage_match_Monthly, Option.some_bind, prepareFilter_get_dt, hs, he,
      Option.getD_some, Option.getD_some, h1, h2]

/-- Witness of C8 (amended) on the request of the test. -/
theorem match_date_range_is_day_buckets_witness :
    stageField "$match" "dt" (Monthly parseZulu
        ⟨"2015-06-20T12:00:00Z", "2015-06-26T23:00:00Z", ["ap1"], [], []⟩) =
      some (Bson.doc [("$gte", Bson.int (specDayBucket ⟨2015, 6, 20⟩)),
        ("$lte", Bson.int (specDayBucket ⟨2015, 6, 26⟩))]) :=
  (match_date_range_is_day_buckets parseZulu
    ⟨"2015-06-20T12:00:00Z", "2015-06-26T23:00:00Z", ["ap1"], [], []⟩
    ⟨2015, 6, 20⟩ ⟨2015, 6, 26⟩ (by decide) (by decide) (by decide) (by decide)).2.1

/-- C10: for every input, `Daily` returns exactly the three stages match, project, sort
(no group stage, no `$avg`), sorted by `(p, n, s, dt)`; `Monthly` returns exactly the four
stages match, group, project, sort, grouped by the first 6 characters of `dt` plus
`i, sc, ss, n, pr, m, cs, ns, s, p` and sorted by `(ns, p, n, s, dt)`; every sort direction
is ascending (`1`) and the match stage of both is `prepareFilter input`. -/
theorem daily_and_monthly_stages (parse : String → Option Time)
    (input : ApiSiteAvailabilityInProfileInput) :
    (Daily parse input).map Bson.keys = [["$match"], ["$project"], ["$sort"]] ∧
    stage "$group" (Daily parse input) = none ∧
    stage "$match" (Daily parse input) = some (prepareFilter parse input) ∧
    stage "$project" (Daily parse input) = some (Bson.doc [
      ("dt", Bson.doc [("$substr", Bson.arr [Bson.str "$dt", Bson.int 0, Bson.int 8])]),
      ("i", Bson.int 1), ("sc", Bson.int 1), ("ss", Bson.int 1), ("n", Bson.int 1),
      ("pr", Bson.int 1), ("m", Bson.int 1), ("cs", Bson.int 1), ("ns", Bson.int 1),
      ("s", Bson.int 1), ("p", Bson.int 1), ("a", Bson.int 1), ("r", Bson.int 1)]) ∧
    stage "$sort" (Daily parse input) = some (Bson.doc [
      ("p", Bson.int 1), ("n", Bson.int 1), ("s", Bson.int 1), ("dt", Bson.int 1)]) ∧
    (Monthly parse input).map Bson.keys = [["$match"], ["$group"], ["$project"], ["$sort"]] ∧
    stage "$match" (Monthly parse input) = some (prepareFilter parse input) ∧
    stageField "$group" "_id" (Monthly parse input) = some (Bson.doc [
      ("dt", Bson.doc [("$substr", Bson.arr [Bson.str "$dt", Bson.int 0, Bson.int 6])]),
      ("i", Bson.str "$i"), ("sc", Bson.str "$sc"), ("ss", Bson.str "$ss"),
      ("n", Bson.str "$n"), ("pr", Bson.str "$pr"), ("m", Bson.str "$m"),
      ("cs", Bson.str "$cs"), ("ns", Bson.str "$ns"), ("s", Bson.str "$s"),
      ("p", Bson.str "$p")]) ∧
    stage "$sort" (Monthly parse input) = some (Bson.doc [
      ("ns", Bson.int 1), ("p", Bson.int 1), ("n", Bson.int 1), ("s", Bson.int 1),
      ("dt", Bson.int 1)]) := by
  refine ⟨rfl, ?_, stage_match_Daily parse input, ?_, ?_, rfl,
    stage_match_Monthly parse input, ?_, ?_⟩
  · simp [stage, Daily, Bson.get, List.findSome?, List.lookup]
  · simp [stage, Daily, Bson.get, List.findSome?, List.lookup]
  · simp [stage, Daily, Bson.get, List.findSome?, List.lookup]
  · simp [stageField, stage, Monthly, Bson.get, List.findSome?, List.lookup]
  · simp [stage, Monthly, Bson.get, List.findSome?, List.lookup]

/-! ### C4 to C7, C9: the controller `List` -/

theorem string_length_eq_zero (s : String) : s.length = 0 ↔ s = "" := by
  constructor
  · intro h
    cases s with
    | mk data =>
      have : data = [] := List.length_eq_zero.mp h
      subst this
      rfl
  · intro h
    subst h
    rfl

theorem normalise_Production (v : ngiAvailability.Values) :
    (ngiAvailability.normalise v).Production =
      if v.Get "production" = "" ∨ v.Get "production" = "true" then "Y" else "N" := by
  simp only [ngiAvailability.normalise, string_length_eq_zero]
  split_ifs <;> rfl

theorem normalise_Monitored (v : ngiAvailability.Values) :
    (ngiAvailability.normalise v).Monitored =
      if v.Get "monitored" = "" ∨ v.Get "monitored" = "true" then "Y" else "N" := by
  simp only [ngiAvailability.normalise, string_length_eq_zero]
  split_ifs <;> rfl

theorem normalise_Infrastructure (v : ngiAvailability.Values) :
    (ngiAvailability.normalise v).Infrastructure =
      if v.Get "infrastructure" = "" then "Production" else v.Get "infrastructure" := by
  simp only [ngiAvailability.normalise, string_length_eq_zero]
  split_ifs <;> rfl

theorem normalise_Certification (v : ngiAvailability.Values) :
    (ngiAvailability.normalise v).Certification =
      if v.Get "certification" = "" then "Certified" else v.Get "certification" := by
  simp only [ngiAvailability.normalise, string_length_eq_zero]
  split_ifs <;> rfl

theorem normalise_rest (v : ngiAvailability.Values) :
    (ngiAvailability.normalise v).start_time = v.Get "start_time" ∧
    (ngiAvailability.normalise v).end_time = v.Get "end_time" ∧
    (ngiAvailability.normalise v).availability_profile = v.Get "availability_profile" ∧
    (ngiAvailability.normalise v).Granularity = v.Get "granularity" ∧
    (ngiAvailability.normalise v).format = v.Get "format" ∧
    (ngiAvailability.normalise v).group_name = v.index "group_name" := by
  simp only [ngiAvailability.normalise]
  split_ifs <;> simp

/-- C4 (as stated, refuted): the parameter value `yes` is neither absent nor the literal
`false`, yet `List` normalises `production=yes` and `monitored=yes` to `N`. -/
theorem flag_yes_normalises_to_N :
    "yes" ≠ "" ∧ "yes" ≠ "false" ∧
    (ngiAvailability.normalise [("production", ["yes"])]).Production = "N" ∧
    (ngiAvailability.normalise [("monitored", ["yes"])]).Monitored = "N" := by
  refine ⟨by decide, by decide, ?_, ?_⟩
  · rw [normalise_Production]; decide
  · rw [normalise_Monitored]; decide

/-- C4 (amended): in the normalisation `List` applies to the production and the monitored
request parameters, for every parameter string `s` the normalised flag is `Y` when `s` is
absent (empty) or is the literal `true`, and is `N` for every other `s`, the literal `false`
included. -/
theorem flag_is_Y_iff_absent_or_true (v : ngiAvailability.Values) :
    ((ngiAvailability.normalise v).Production = "Y" ↔
      v.Get "production" = "" ∨ v.Get "production" = "true") ∧
    ((ngiAvailability.normalise v).Production = "N" ↔
      ¬ (v.Get "production" = "" ∨ v.Get "production" = "true")) ∧
    ((ngiAvailability.normalise v).Monitored = "Y" ↔
      v.Get "monitored" = "" ∨ v.Get "monitored" = "true") ∧
    ((ngiAvailability.normalise v).Monitored = "N" ↔
      ¬ (v.Get "monitored" = "" ∨ v.Get "monitored" = "true")) ∧
    ((ngiAvailability.normalise [("production", ["false"])]).Production = "N") ∧
    ((ngiAvailability.normalise [("monitored", ["false"])]).Monitored = "N") := by
  have hYN : ("Y" : String) ≠ "N" := by decide
  refine ⟨?_, ?_, ?_, ?_, ?_, ?_⟩
  · rw [normalise_Production]; split_ifs with h <;> simp [h, hYN.symm]
  · rw [normalise_Production]; split_ifs with h <;> simp [h, hYN]
  · rw [normalise_Monitored]; split_ifs with h <;> simp [h, hYN.symm]
  · rw [normalise_Monitored]; split_ifs with h <;> simp [h, hYN]
  · rw [normalise_Production]; decide
  · rw [normalise_Monitored]; decide

theorem input_ext (a b : ngiAvailability.ApiNgiAvailabilityInProfileInput)
    (h1 : a.start_time = b.start_time) (h2 : a.end_time = b.end_time)
    (h3 : a.availability_profile = b.availability_profile)
    (h4 : a.Granularity = b.Granularity) (h5 : a.Infrastructure = b.Infrastructure)
    (h6 : a.Production = b.Production) (h7 : a.Monitored = b.Monitored)
    (h8 : a.Certification = b.Certification) (h9 : a.format = b.format)
    (h10 : a.group_name = b.group_name) : a = b := by
  cases a
  cases b
  simp only [ngiAvailability.ApiNgiAvailabilityInProfileInput.mk.injEq]
  exact ⟨h1, h2, h3, h4, h5, h6, h7, h8, h9, h10⟩

/-- The granularity switch runs at most one pipeline and touches no cache. -/
theorem dispatch_events {Row Query : Type} (env : ngiAvailability.Env Row Query)
    (input : ngiAvailability.ApiNgiAvailabilityInProfileInput) (cf : String × String) :
    cacheKeys (ngiAvailability.dispatch env input cf).events = [] ∧
    cacheWrites (ngiAvailability.dispatch env input cf).events = [] := by
  unfold ngiAvailability.dispatch
  split_ifs <;> simp [cacheKeys, cacheWrites]

/-- The cache writes of `List`: one, of the returned payload under the normalised
input, exactly when the lookup misses, the switch reports no error and rows came back. -/
theorem List_cacheWrites {Row Query : Type} (env : ngiAvailability.Env Row Query)
    (v : ngiAvailability.Values) (cf : String × String) :
    cacheWrites (ngiAvailability.List env v cf).events =
      if (env.HitCache "ngis" (ngiAvailability.normalise v)).1 = false ∧
          (ngiAvailability.dispatch env (ngiAvailability.normalise v) cf).err = none ∧
          (ngiAvailability.dispatch env (ngiAvailability.normalise v) cf).results.length > 0
      then [("ngis", ngiAvailability.normalise v, (ngiAvailability.List env v cf).output)]
      else [] := by
  have hd := (dispatch_events env (ngiAvailability.normalise v) cf).2
  unfold ngiAvailability.List
  dsimp only
  generalize ngiAvailability.normalise v = input at hd ⊢
  generalize ngiAvailability.dispatch env input cf = d at hd ⊢
  cases hh : (env.HitCache "ngis" input).1 with
  | true => simp [cacheWrites]
  | false =>
    cases he : d.err with
    | some e => simpa [cacheWrites] using hd
    | none =>
      by_cases hl : d.results.length > 0
      · simp only [cacheWrites] at hd
        simp [hl, cacheWrites, List.filterMap_append, hd]
      · simp only [cacheWrites] at hd
        simp [hl, cacheWrites, List.filterMap_append, hd]

/-- The cache entries `List` addresses all carry the endpoint name `ngis` and the
normalised input, and the lookup is always made. -/
theorem List_cacheKeys {Row Query : Type} (env : ngiAvailability.Env Row Query)
    (v : ngiAvailability.Values) (cf : String × String) :
    (ngiAvailability.List env v cf).events.head? =
      some (ngiAvailability.Event.HitCache "ngis" (ngiAvailability.normalise v)) ∧
    ∀ k ∈ cacheKeys (ngiAvailability.List env v cf).events,
      k = ("ngis", ngiAvailability.normalise v) := by
  have hd := (dispatch_events env (ngiAvailability.normalise v) cf).1
  unfold ngiAvailability.List
  dsimp only
  generalize ngiAvailability.normalise v = input at hd ⊢
  generalize ngiAvailability.dispatch env input cf = d at hd ⊢
  cases hh : (env.HitCache "ngis" input).1 with
  | true => simp [cacheKeys]
  | false =>
    cases he : d.err with
    | some e =>
      simp only [cacheKeys] at hd
      simp [cacheKeys, hd]
    | none =>
      by_cases hl : d.results.length > 0
      · simp only [cacheKeys] at hd
        simp [hl, cacheKeys, List.filterMap_append, hd]
      · simp only [cacheKeys] at hd
        simp [hl, cacheKeys, List.filterMap_append, hd]

theorem Get_congr (v1 v2 : ngiAvailability.Values) (key : String)
    (h : v1.lookup key = v2.lookup key) : v1.Get key = v2.Get key := by
  simp only [ngiAvailability.Values.Get, h]

/-- C5: two requests that agree on every parameter except that, for production,
monitored, infrastructure and certification, one may omit the parameter where the other
gives its default-equivalent value (`true`, `true`, `Production`, `Certified`) have the
same normalised input, and every cache lookup and cache write `List` makes for either of
them is made under the endpoint name `ngis` with that input: both requests address the
same cache entry. -/
theorem default_equivalent_requests_share_cache_entry {Row Query : Type}
    (env1 env2 : ngiAvailability.Env Row Query) (cf1 cf2 : String × String)
    (v1 v2 : ngiAvailability.Values)
    (hrest : ∀ key, key ∉ ["infrastructure", "production", "monitored", "certification"] →
      v1.lookup key = v2.lookup key)
    (hprod : defaultEquivalent "production" "true" v1 v2)
    (hmon : defaultEquivalent "monitored" "true" v1 v2)
    (hinf : defaultEquivalent "infrastructure" "Production" v1 v2)
    (hcert : defaultEquivalent "certification" "Certified" v1 v2) :
    ngiAvailability.normalise v1 = ngiAvailability.normalise v2 ∧
    (ngiAvailability.List env1 v1 cf1).events.head? =
      some (ngiAvailability.Event.HitCache "ngis" (ngiAvailability.normalise v1)) ∧
    (ngiAvailability.List env2 v2 cf2).events.head? =
      some (ngiAvailability.Event.HitCache "ngis" (ngiAvailability.normalise v1)) ∧
    ∀ k ∈ cacheKeys (ngiAvailability.List env1 v1 cf1).events ++
        cacheKeys (ngiAvailability.List env2 v2 cf2).events,
      k = ("ngis", ngiAvailability.normalise v1) := by
  have hn : ngiAvailability.normalise v1 = ngiAvailability.normalise v2 := by
    obtain ⟨a1, a2, a3, a4, a5, a6⟩ := normalise_rest v1
    obtain ⟨b1, b2, b3, b4, b5, b6⟩ := normalise_rest v2
    apply input_ext
    · rw [a1, b1]; exact Get_congr _ _ _ (hrest _ (by decide))
    · rw [a2, b2]; exact Get_congr _ _ _ (hrest _ (by decide))
    · rw [a3, b3]; exact Get_congr _ _ _ (hrest _ (by decide))
    · rw [a4, b4]; exact Get_congr _ _ _ (hrest _ (by decide))
    · rw [normalise_Infrastructure, normalise_Infrastructure]
      rcases hinf with h | ⟨h, h'⟩ | ⟨h, h'⟩
      · rw [h]
      · rw [h, h']; decide
      · rw [h, h']; decide
    · rw [normalise_Production, normalise_Production]
      rcases hprod with h | ⟨h, h'⟩ | ⟨h, h'⟩
      · rw [h]
      · rw [h, h']; decide
      · rw [h, h']; decide
    · rw [normalise_Monitored, normalise_Monitored]
      rcases hmon with h | ⟨h, h'⟩ | ⟨h, h'⟩
      · rw [h]
      · rw [h, h']; decide
      · rw [h, h']; decide
    · rw [normalise_Certification, normalise_Certification]
      rcases hcert with h | ⟨h, h'⟩ | ⟨h, h'⟩
      · rw [h]
      · rw [h, h']; decide
      · rw [h, h']; decide
    · rw [a5, b5]; exact Get_congr _ _ _ (hrest _ (by decide))
    · rw [a6, b6]
      simp only [ngiAvailability.Values.index, hrest "group_name" (by decide)]
  refine ⟨hn, (List_cacheKeys env1 v1 cf1).1, ?_, ?_⟩
  · rw [hn]; exact (List_cacheKeys env2 v2 cf2).1
  · intro k hk
    rcases List.mem_append.mp hk with h | h
    · exact (List_cacheKeys env1 v1 cf1).2 k h
    · rw [hn]; exact (List_cacheKeys env2 v2 cf2).2 k h

/-- Witness of C5: `production` omitted against `production=true`. -/
theorem default_equivalent_requests_share_cache_entry_witness :
    ngiAvailability.normalise [("start_time", ["2015-06-20T12:00:00Z"])] =
      ngiAvailability.normalise
        [("start_time", ["2015-06-20T12:00:00Z"]), ("production", ["true"])] :=
  (default_equivalent_requests_share_cache_entry (coldEnv [1] none) (coldEnv [1] none)
    ("", "") ("", "")
    [("start_time", ["2015-06-20T12:00:00Z"])]
    [("start_time", ["2015-06-20T12:00:00Z"]), ("production", ["true"])]
    (by
      intro key hkey
      have hp : key ≠ "production" := by
        intro h; subst h; exact hkey (by decide)
      have hp2 : (key == "production") = false := by
        rw [beq_eq_false_iff_ne]; exact hp
      simp [List.lookup, hp2])
    (Or.inr (Or.inl ⟨by decide, by decide⟩))
    (Or.inl (by decide)) (Or.inl (by decide)) (Or.inl (by decide))).1

theorem dispatch_daily {Row Query : Type} (env : ngiAvailability.Env Row Query)
    (input : ngiAvailability.ApiNgiAvailabilityInProfileInput) (cf : String × String)
    (h : input.Granularity = "" ∨ env.ToLower input.Granularity = "daily") :
    ngiAvailability.dispatch env input cf =
      ⟨("20060102", "2006-01-02"), (env.Pipe "AR" "sites" (env.Daily input)).1,
        (env.Pipe "AR" "sites" (env.Daily input)).2,
        [ngiAvailability.Event.Pipe "AR" "sites" (env.Daily input)]⟩ := by
  unfold ngiAvailability.dispatch
  simp only [string_length_eq_zero]
  rw [if_pos h]

theorem dispatch_monthly {Row Query : Type} (env : ngiAvailability.Env Row Query)
    (input : ngiAvailability.ApiNgiAvailabilityInProfileInput) (cf : String × String)
    (h : ¬ (input.Granularity = "" ∨ env.ToLower input.Granularity = "daily"))
    (hm : env.ToLower input.Granularity = "monthly") :
    ngiAvailability.dispatch env input cf =
      ⟨("200601", "2006-01"), (env.Pipe "AR" "sites" (env.Monthly input)).1,
        (env.Pipe "AR" "sites" (env.Monthly input)).2,
        [ngiAvailability.Event.Pipe "AR" "sites" (env.Monthly input)]⟩ := by
  unfold ngiAvailability.dispatch
  simp only [string_length_eq_zero]
  rw [if_neg h, if_pos hm]

theorem dispatch_other {Row Query : Type} (env : ngiAvailability.Env Row Query)
    (input : ngiAvailability.ApiNgiAvailabilityInProfileInput) (cf : String × String)
    (h : ¬ (input.Granularity = "" ∨ env.ToLower input.Granularity = "daily"))
    (hm : ¬ env.ToLower input.Granularity = "monthly") :
    ngiAvailability.dispatch env input cf = ⟨cf, [], none, []⟩ := by
  unfold ngiAvailability.dispatch
  simp only [string_length_eq_zero]
  rw [if_neg h, if_neg hm]

/-- What the switch leaves in `results` and `err` is what the one pipeline it ran
returned. -/
theorem dispatch_results_of_pipe {Row Query : Type} (env : ngiAvailability.Env Row Query)
    (input : ngiAvailability.ApiNgiAvailabilityInProfileInput) (cf : String × String) :
    ∀ q ∈ pipesRun (ngiAvailability.dispatch env input cf).events,
      pipesRun (ngiAvailability.dispatch env input cf).events = [q] ∧
      q.1 = "AR" ∧ q.2.1 = "sites" ∧
      (ngiAvailability.dispatch env input cf).results = (env.Pipe q.1 q.2.1 q.2.2).1 ∧
      (ngiAvailability.dispatch env input cf).err = (env.Pipe q.1 q.2.1 q.2.2).2 := by
  intro q hq
  by_cases h : input.Granularity = "" ∨ env.ToLower input.Granularity = "daily"
  · rw [dispatch_daily env input cf h] at hq ⊢
    simp only [pipesRun, List.filterMap_cons, List.filterMap_nil, List.mem_singleton] at hq ⊢
    subst hq
    exact ⟨rfl, rfl, rfl, rfl, rfl⟩
  · by_cases hm : env.ToLower input.Granularity = "monthly"
    · rw [dispatch_monthly env input cf h hm] at hq ⊢
      simp only [pipesRun, List.filterMap_cons, List.filterMap_nil, List.mem_singleton] at hq ⊢
      subst hq
      exact ⟨rfl, rfl, rfl, rfl, rfl⟩
    · rw [dispatch_other env input cf h hm] at hq
      simp [pipesRun] at hq

/-- An error of the switch comes from a pipeline it ran. -/
theorem dispatch_err_of_pipe {Row Query : Type} (env : ngiAvailability.Env Row Query)
    (input : ngiAvailability.ApiNgiAvailabilityInProfileInput) (cf : String × String)
    (e : String) (he : (ngiAvailability.dispatch env input cf).err = some e) :
    ∃ q, pipesRun (ngiAvailability.dispatch env input cf).events = [("AR", "sites", q)] ∧
      (env.Pipe "AR" "sites" q).2 = some e := by
  by_cases h : input.Granularity = "" ∨ env.ToLower input.Granularity = "daily"
  · rw [dispatch_daily env input cf h] at he ⊢
    exact ⟨env.Daily input, by simp [pipesRun], he⟩
  · by_cases hm : env.ToLower input.Granularity = "monthly"
    · rw [dispatch_monthly env input cf h hm] at he ⊢
      exact ⟨env.Monthly input, by simp [pipesRun], he⟩
    · rw [dispatch_other env input cf h hm] at he
      simp at he

/-- On a cache miss, `List` runs the pipelines of the switch, keeps its `CustomForm`,
and returns the error payload or the rendered rows. -/
theorem List_on_miss {Row Query : Type} (env : ngiAvailability.Env Row Query)
    (v : ngiAvailability.Values) (cf : String × String)
    (hmiss : (env.HitCache "ngis" (ngiAvailability.normalise v)).1 = false) :
    pipesRun (ngiAvailability.List env v cf).events =
      pipesRun (ngiAvailability.dispatch env (ngiAvailability.normalise v) cf).events ∧
    (ngiAvailability.List env v cf).CustomForm =
      (ngiAvailability.dispatch env (ngiAvailability.normalise v) cf).CustomForm ∧
    (ngiAvailability.List env v cf).output =
      match (ngiAvailability.dispatch env (ngiAvailability.normalise v) cf).err with
      | some e => "<root><error>" ++ e ++ "</error></root>"
      | none => (env.CreateView
          (ngiAvailability.dispatch env (ngiAvailability.normalise v) cf).results
          (ngiAvailability.normalise v).format).1 := by
  unfold ngiAvailability.List
  dsimp only
  generalize ngiAvailability.normalise v = input at hmiss ⊢
  generalize ngiAvailability.dispatch env input cf = d
  simp only [hmiss]
  cases he : d.err with
  | some e => simp [pipesRun]
  | none =>
    by_cases hl : d.results.length > 0
    · simp [hl, pipesRun, List.filterMap_append]
    · simp [hl, pipesRun, List.filterMap_append]

/-- C6: for every request whose cache lookup misses, if the pipeline execution leaves zero
result rows then `List` makes no cache write; whenever `List` does write the cache, the
result list is non-empty, the rows are those its one pipeline returned, and the payload
written (under `ngis` and the normalised input) is the payload `List` returns. -/
theorem empty_result_is_never_cached {Row Query : Type} (env : ngiAvailability.Env Row Query)
    (v : ngiAvailability.Values) (cf : String × String)
    (hmiss : (env.HitCache "ngis" (ngiAvailability.normalise v)).1 = false) :
    ((ngiAvailability.dispatch env (ngiAvailability.normalise v) cf).results = [] →
      cacheWrites (ngiAvailability.List env v cf).events = []) ∧
    (∀ q ∈ pipesRun (ngiAvailability.List env v cf).events,
      (env.Pipe q.1 q.2.1 q.2.2).1 = [] →
      cacheWrites (ngiAvailability.List env v cf).events = []) ∧
    (∀ w ∈ cacheWrites (ngiAvailability.List env v cf).events,
      (ngiAvailability.dispatch env (ngiAvailability.normalise v) cf).results ≠ [] ∧
      w = ("ngis", ngiAvailability.normalise v, (ngiAvailability.List env v cf).output) ∧
      cacheWrites (ngiAvailability.List env v cf).events = [w]) := by
  have hw := List_cacheWrites env v cf
  refine ⟨?_, ?_, ?_⟩
  · intro hz
    rw [hw, if_neg]
    rintro ⟨_, _, hl⟩
    rw [hz] at hl
    simp at hl
  · intro q hq hz
    rw [(List_on_miss env v cf hmiss).1] at hq
    have hr := (dispatch_results_of_pipe env (ngiAvailability.normalise v) cf q hq).2.2.2.1
    rw [hw, if_neg]
    rintro ⟨_, _, hl⟩
    rw [hr, hz] at hl
    simp at hl
  · intro w hwm
    rw [hw] at hwm ⊢
    split_ifs at hwm ⊢ with hc
    · rw [List.mem_singleton] at hwm
      refine ⟨?_, hwm, by rw [hwm]⟩
      intro hz
      rw [hz] at hc
      simp at hc
    · simp at hwm

/-- Witness of C6: a daily request on a cold cache whose pipeline returns no rows. -/
theorem empty_result_is_never_cached_witness :
    ((coldEnv [] none).HitCache "ngis" (ngiAvailability.normalise [])).1 = false ∧
    cacheWrites (ngiAvailability.List (coldEnv [] none) [] ("", "")).events = [] :=
  ⟨rfl, (empty_result_is_never_cached (coldEnv [] none) [] ("", "") rfl).1 (by decide)⟩

/-- C7: for every request whose cache lookup misses and whose pipeline execution returns
a non-nil error `e` (the `Daily` pipeline when the granularity is absent or `daily`, the
`Monthly` pipeline when it is `monthly`, as `mongo.Pipe` answers it), `List` returns
exactly `<root><error>` + `e` + `</error></root>` and makes no cache write. -/
theorem pipeline_error_is_returned_and_not_cached {Row Query : Type}
    (env : ngiAvailability.Env Row Query) (v : ngiAvailability.Values)
    (cf : String × String) (e : String)
    (hmiss : (env.HitCache "ngis" (ngiAvailability.normalise v)).1 = false)
    (hpipe :
      ((v.Get "granularity" = "" ∨ env.ToLower (v.Get "granularity") = "daily") ∧
        (env.Pipe "AR" "sites" (env.Daily (ngiAvailability.normalise v))).2 = some e) ∨
      (¬ (v.Get "granularity" = "" ∨ env.ToLower (v.Get "granularity") = "daily") ∧
        env.ToLower (v.Get "granularity") = "monthly" ∧
        (env.Pipe "AR" "sites" (env.Monthly (ngiAvailability.normalise v))).2 = some e)) :
    (ngiAvailability.List env v cf).output = "<root><error>" ++ e ++ "</error></root>" ∧
    cacheWrites (ngiAvailability.List env v cf).events = [] ∧
    ∃ q, pipesRun (ngiAvailability.List env v cf).events = [("AR", "sites", q)] ∧
      (env.Pipe "AR" "sites" q).2 = some e := by
  have hg : (ngiAvailability.normalise v).Granularity = v.Get "granularity" :=
    (normalise_rest v).2.2.2.1
  have herr : (ngiAvailability.dispatch env (ngiAvailability.normalise v) cf).err = some e := by
    rcases hpipe with ⟨hd, he⟩ | ⟨hd, hm, he⟩
    · rw [← hg] at hd
      rw [dispatch_daily env _ cf hd]
      exact he
    · rw [← hg] at hd hm
      rw [dispatch_monthly env _ cf hd hm]
      exact he
  obtain ⟨h1, _, h3⟩ := List_on_miss env v cf hmiss
  refine ⟨?_, ?_, ?_⟩
  · rw [h3, herr]
  · rw [List_cacheWrites, if_neg]
    rintro ⟨_, hn, _⟩
    rw [herr] at hn
    exact absurd hn (by simp)
  · rw [h1]
    exact dispatch_err_of_pipe env _ cf e herr

/-- Witness of C7: a monthly and a daily request on a cold cache whose pipelines fail
with `EOF`, although rows came back. -/
theorem pipeline_error_is_returned_and_not_cached_witness :
    ((coldEnv [1, 2] (some "EOF")).HitCache "ngis"
      (ngiAvailability.normalise [("granularity", ["MONTHLY"])])).1 = false ∧
    ((coldEnv [1, 2] (some "EOF")).Pipe "AR" "sites"
      ((coldEnv [1, 2] (some "EOF")).Monthly
        (ngiAvailability.normalise [("granularity", ["MONTHLY"])]))).2 = some "EOF" ∧
    (ngiAvailability.List (coldEnv [1, 2] (some "EOF")) [("granularity", ["MONTHLY"])]
      ("", "")).output = "<root><error>" ++ "EOF" ++ "</error></root>" ∧
    cacheWrites (ngiAvailability.List (coldEnv [1, 2] (some "EOF"))
      [("granularity", ["MONTHLY"])] ("", "")).events = [] ∧
    (ngiAvailability.List (coldEnv [1, 2] (some "EOF")) [] ("", "")).output =
      "<root><error>" ++ "EOF" ++ "</error></root>" ∧
    cacheWrites (ngiAvailability.List (coldEnv [1, 2] (some "EOF")) [] ("", "")).events = [] :=
  ⟨rfl, rfl,
    (pipeline_error_is_returned_and_not_cached (coldEnv [1, 2] (some "EOF"))
      [("granularity", ["MONTHLY"])] ("", "") "EOF" rfl
      (Or.inr ⟨by decide, by decide, rfl⟩)).1,
    (pipeline_error_is_returned_and_not_cached (coldEnv [1, 2] (some "EOF"))
      [("granularity", ["MONTHLY"])] ("", "") "EOF" rfl
      (Or.inr ⟨by decide, by decide, rfl⟩)).2.1,
    (pipeline_error_is_returned_and_not_cached (coldEnv [1, 2] (some "EOF")) [] ("", "") "EOF"
      rfl (Or.inl ⟨Or.inl (by decide), rfl⟩)).1,
    (pipeline_error_is_returned_and_not_cached (coldEnv [1, 2] (some "EOF")) [] ("", "") "EOF"
      rfl (Or.inl ⟨Or.inl (by decide), rfl⟩)).2.1⟩

/-- C9: for every request that misses the cache, `List` dispatches on the granularity
parameter: absent, or `daily` after `strings.ToLower`, runs the `Daily` pipeline and sets
the formats to the day pair; `monthly` after `strings.ToLower` runs the `Monthly` pipeline
and sets the formats to the month pair; the two format slots end as the day pair, the
month pair, or untouched, never one of each; for any other granularity no pipeline is
run, the result list stays empty, the rendered empty list is returned (not an error
payload), nothing is cached and the formats stay untouched. -/
theorem granularity_dispatch {Row Query : Type} (env : ngiAvailability.Env Row Query)
    (v : ngiAvailability.Values) (cf : String × String)
    (hmiss : (env.HitCache "ngis" (ngiAvailability.normalise v)).1 = false) :
    (v.Get "granularity" = "" ∨ env.ToLower (v.Get "granularity") = "daily" →
      pipesRun (ngiAvailability.List env v cf).events =
        [("AR", "sites", env.Daily (ngiAvailability.normalise v))] ∧
      (ngiAvailability.List env v cf).CustomForm = ("20060102", "2006-01-02")) ∧
    (v.Get "granularity" ≠ "" ∧ env.ToLower (v.Get "granularity") = "monthly" →
      pipesRun (ngiAvailability.List env v cf).events =
        [("AR", "sites", env.Monthly (ngiAvailability.normalise v))] ∧
      (ngiAvailability.List env v cf).CustomForm = ("200601", "2006-01")) ∧
    ((ngiAvailability.List env v cf).CustomForm = ("20060102", "2006-01-02") ∨
      (ngiAvailability.List env v cf).CustomForm = ("200601", "2006-01") ∨
      (ngiAvailability.List env v cf).CustomForm = cf) ∧
    (v.Get "granularity" ≠ "" ∧ env.ToLower (v.Get "granularity") ≠ "daily" ∧
        env.ToLower (v.Get "granularity") ≠ "monthly" →
      pipesRun (ngiAvailability.List env v cf).events = [] ∧
      (ngiAvailability.dispatch env (ngiAvailability.normalise v) cf).results = [] ∧
      (ngiAvailability.List env v cf).output =
        (env.CreateView [] (ngiAvailability.normalise v).format).1 ∧
      cacheWrites (ngiAvailability.List env v cf).events = [] ∧
      (ngiAvailability.List env v cf).CustomForm = cf) := by
  obtain ⟨h1, h2, h3⟩ := List_on_miss env v cf hmiss
  have hg : (ngiAvailability.normalise v).Granularity = v.Get "granularity" :=
    (normalise_rest v).2.2.2.1
  have hw := List_cacheWrites env v cf
  rw [h1, h2]
  rw [h3] at hw ⊢
  rw [← hg]
  by_cases hd : (ngiAvailability.normalise v).Granularity = "" ∨
      env.ToLower (ngiAvailability.normalise v).Granularity = "daily"
  · rw [dispatch_daily env _ cf hd] at hw ⊢
    refine ⟨fun _ => ⟨by simp [pipesRun], rfl⟩, ?_, Or.inl rfl, ?_⟩
    · rintro ⟨hne, hm⟩
      rcases hd with hd | hd
      · exact absurd hd hne
      · rw [hm] at hd
        exact absurd hd (by decide)
    · rintro ⟨hne, hnd, _⟩
      rcases hd with hd | hd
      · exact absurd hd hne
      · exact absurd hd hnd
  · by_cases hm : env.ToLower (ngiAvailability.normalise v).Granularity = "monthly"
    · rw [dispatch_monthly env _ cf hd hm] at hw ⊢
      refine ⟨fun h => absurd h hd, fun _ => ⟨by simp [pipesRun], rfl⟩, Or.inr (Or.inl rfl), ?_⟩
      rintro ⟨_, _, hnm⟩
      exact absurd hm hnm
    · rw [dispatch_other env _ cf hd hm] at hw ⊢
      refine ⟨fun h => absurd h hd, fun h => absurd h.2 hm, Or.inr (Or.inr rfl), ?_⟩
      intro _
      refine ⟨by simp [pipesRun], rfl, rfl, ?_, rfl⟩
      rw [hw, if_neg]
      rintro ⟨_, _, hl⟩
      simp at hl

/-- Witness of C9: `granularity=Monthly` and `granularity=weekly` on a cold cache. -/
theorem granularity_dispatch_witness :
    ((coldEnv [1] none).HitCache "ngis"
      (ngiAvailability.normalise [("granularity", ["Monthly"])])).1 = false ∧
    (pipesRun (ngiAvailability.List (coldEnv [1] none) [("granularity", ["Monthly"])]
        ("", "")).events = [("AR", "sites", "Monthly")] ∧
      (ngiAvailability.List (coldEnv [1] none) [("granularity", ["Monthly"])]
        ("", "")).CustomForm = ("200601", "2006-01")) ∧
    (ngiAvailability.List (coldEnv [1] none) [("granularity", ["weekly"])]
        ("", "")).CustomForm = ("", "") :=
  ⟨rfl,
    (granularity_dispatch (coldEnv [1] none) [("granularity", ["Monthly"])] ("", "") rfl).2.1
      ⟨by decide, by decide⟩,
    ((granularity_dispatch (coldEnv [1] none) [("granularity", ["weekly"])] ("", "")
      rfl).2.2.2 ⟨by decide, by decide, by decide⟩).2.2.2.2⟩

/-! ### C11 to C13: the fixed constraints, the optional filters, a sample value -/

theorem prepareFilter_fixed (parse : String → Option Time)
    (input : ApiSiteAvailabilityInProfileInput) :
    (prepareFilter parse input).get "i" = some (Bson.str "Production") ∧
    (prepareFilter parse input).get "cs" = some (Bson.str "Certified") ∧
    (prepareFilter parse input).get "pr" = some (Bson.str "Y") ∧
    (prepareFilter parse input).get "m" = some (Bson.str "Y") := by
  by_cases hn : input.namespace_.length > 0 <;>
    simp [prepareFilter, Bson.set, Bson.get, hn, List.lookup]

/-- C11: for every input, whatever its field values, the filter returned by
`prepareFilter`, and with it the match stage of `Daily` and of `Monthly`, carries the four
equality constraints `i = "Production"`, `cs = "Certified"`, `pr = "Y"` and `m = "Y"`. -/
theorem fixed_constraints_always_present (parse : String → Option Time)
    (input : ApiSiteAvailabilityInProfileInput) :
    ((prepareFilter parse input).get "i" = some (Bson.str "Production") ∧
      (prepareFilter parse input).get "cs" = some (Bson.str "Certified") ∧
      (prepareFilter parse input).get "pr" = some (Bson.str "Y") ∧
      (prepareFilter parse input).get "m" = some (Bson.str "Y")) ∧
    (stageField "$match" "i" (Daily parse input) = some (Bson.str "Production") ∧
      stageField "$match" "cs" (Daily parse input) = some (Bson.str "Certified") ∧
      stageField "$match" "pr" (Daily parse input) = some (Bson.str "Y") ∧
      stageField "$match" "m" (Daily parse input) = some (Bson.str "Y")) ∧
    (stageField "$match" "i" (Monthly parse input) = some (Bson.str "Production") ∧
      stageField "$match" "cs" (Monthly parse input) = some (Bson.str "Certified") ∧
      stageField "$match" "pr" (Monthly parse input) = some (Bson.str "Y") ∧
      stageField "$match" "m" (Monthly parse input) = some (Bson.str "Y")) := by
  have h := prepareFilter_fixed parse input
  refine ⟨h, ?_, ?_⟩
  · simp only [stageField, stage_match_Daily, Option.some_bind]
    exact h
  · simp only [stageField, stage_match_Monthly, Option.some_bind]
    exact h

/-- The keys of the filter: the date range, the profile, the namespace when one is
given, and the four fixed constraints. -/
theorem prepareFilter_keys (parse : String → Option Time)
    (input : ApiSiteAvailabilityInProfileInput) :
    (prepareFilter parse input).keys =
      if input.namespace_ = [] then ["dt", "p", "i", "cs", "pr", "m"]
      else ["dt", "p", "ns", "i", "cs", "pr", "m"] := by
  by_cases hn : input.namespace_ = []
  · simp [prepareFilter, Bson.set, Bson.keys, hn]
  · have hl : input.namespace_.length > 0 := List.length_pos.mpr hn
    simp [prepareFilter, Bson.set, Bson.keys, hn, hl]

/-- The namespace constraint of the filter. -/
theorem prepareFilter_get_ns (parse : String → Option Time)
    (input : ApiSiteAvailabilityInProfileInput) :
    (prepareFilter parse input).get "ns" =
      if input.namespace_ = [] then none
      else some (Bson.doc [("$in", Bson.strs input.namespace_)]) := by
  by_cases hn : input.namespace_ = []
  · simp [prepareFilter, Bson.set, Bson.get, hn, List.lookup]
  · have hl : input.namespace_.length > 0 := List.length_pos.mpr hn
    simp [prepareFilter, Bson.set, Bson.get, hn, hl, List.lookup]

/-- C12 (the code at the failing input): the namespace dimension is constrained by
`$in input.namespace` exactly when that list is non-empty, but `group_name` never
reaches the filter: the branch for a non-empty `group_name` is empty, so the filter of
an input with `group_name = ["SITE_A"]` is the filter of the same input without group
names, and its keys are the date range, the profile and the four fixed constraints. -/
theorem group_name_never_constrains (parse : String → Option Time)
    (input : ApiSiteAvailabilityInProfileInput) :
    ((prepareFilter parse input).get "ns" =
      if input.namespace_ = [] then none
      else some (Bson.doc [("$in", Bson.strs input.namespace_)])) ∧
    prepareFilter parse input = prepareFilter parse { input with group_name := [] } ∧
    (prepareFilter parse input).keys =
      (if input.namespace_ = [] then ["dt", "p", "i", "cs", "pr", "m"]
       else ["dt", "p", "ns", "i", "cs", "pr", "m"]) ∧
    prepareFilter parseZulu
        ⟨"2015-06-20T12:00:00Z", "2015-06-26T23:00:00Z", ["ap1"], [], ["SITE_A"]⟩ =
      prepareFilter parseZulu
        ⟨"2015-06-20T12:00:00Z", "2015-06-26T23:00:00Z", ["ap1"], [], []⟩ ∧
    (prepareFilter parseZulu
        ⟨"2015-06-20T12:00:00Z", "2015-06-26T23:00:00Z", ["ap1"], [], ["SITE_A"]⟩).keys =
      ["dt", "p", "i", "cs", "pr", "m"] := by
  have hg : ∀ i : ApiSiteAvailabilityInProfileInput,
      prepareFilter parse i = prepareFilter parse { i with group_name := [] } := by
    intro i
    simp only [prepareFilter, ite_self]
  refine ⟨prepareFilter_get_ns parse input, hg input, prepareFilter_keys parse input, ?_, ?_⟩
  · simp only [prepareFilter, ite_self]
  · rw [prepareFilter_keys]; rfl

/-- C13 (as stated, refuted): for `avgup = 0.9`, `avgu = 0`, `avgd = 0` the availability
expression of the project stage of `Monthly` evaluates to `9000000000/100000001`, which
is below `90` and differs from `90.0000009` by more than `1e-6`, so the two do not agree
to seven decimal places. -/
theorem sample_availability_is_not_90_0000009 :
    projected "a" (Monthly parseZulu
        ⟨"2015-06-20T12:00:00Z", "2015-06-26T23:00:00Z", ["ap1"], [], []⟩)
        (avgRow (9 / 10) 0 0) = some (9000000000 / 100000001) ∧
    (9000000000 / 100000001 : ℚ) < 90 ∧
    ¬ (|(9000000000 / 100000001 : ℚ) - 900000009 / 10000000| ≤ 1 / 10 ^ 6) := by
  refine ⟨?_, by norm_num, ?_⟩
  · rw [projected_a]; norm_num
  · rw [abs_le]; norm_num

/-- C13 (amended): for `avgup = 0.9`, `avgu = 0` and `avgd = 0`, the availability
expression of the project stage of `Monthly`, `(avgup / (1.00000001 - avgu)) * 100`,
evaluates to `9000000000/100000001`, approximately `89.9999991`: it agrees with
`89.9999991` to seven decimal places (within `1e-13`). -/
theorem sample_availability_is_89_9999991 (parse : String → Option Time)
    (input : ApiSiteAvailabilityInProfileInput) :
    projected "a" (Monthly parse input) (avgRow (9 / 10) 0 0)
      = some (9000000000 / 100000001) ∧
    (9000000000 / 100000001 : ℚ) = (9 / 10 / (100000001 / 100000000 - 0)) * 100 ∧
    |(9000000000 / 100000001 : ℚ) - 899999991 / 10000000| ≤ 1 / 10 ^ 13 := by
  refine ⟨?_, by norm_num, ?_⟩
  · rw [projected_a]; norm_num
  · rw [abs_le]; norm_num

end ArWebApi
